import Mathlib

/-!
Verification of the configuration validator of the apiserver-network-proxy
server, embedded from cmd/server/app/options/options.go.

The Go code is a struct `ProxyRunOptions`, a constructor `NewProxyRunOptions`
filling in defaults, and a method `Validate` that runs an ordered, fail-fast
chain of checks and, on total success, writes the derived field
`NeedsKubernetesClient`.

Effectful collaborators are modelled explicitly:
* `os.Stat` + `os.IsNotExist` become a function `String → StatResult`; the Go
  code only ever asks whether the stat error is specifically a
  does-not-exist error, so three outcomes suffice.
* `proxystrategies.ParseProxyStrategies`, `util.GetAcceptedCiphers` and
  `util.ParseLabels` live outside this package; `Validate` only consumes
  their success/failure (resp. membership), so they are carried as function
  parameters in an `Env` record.
* The in-place mutation of the receiver (`o.NeedsKubernetesClient = ...`)
  is modelled by returning the resulting struct alongside the error:
  `Validate env o = (o', some e)` means the method returned error `e` with
  the receiver left in state `o'`; `(o', none)` means success.
-/

/-- Outcome of an `os.Stat` call, as far as `os.IsNotExist` can distinguish
it: success, a does-not-exist error, or any other error (e.g. permission
denied). -/
inductive StatResult where
  | ok
  | errNotExist
  | errOther
deriving DecidableEq, Repr

/-- `os.IsNotExist err` for the modelled stat outcome: true exactly on the
does-not-exist error. -/
def isNotExist : StatResult → Bool
  | .errNotExist => true
  | _ => false

/-- The effectful collaborators `Validate` consults: the filesystem stat,
and the success predicates of the external parsers/allow-list. -/
structure Env where
  stat : String → StatResult
  parseProxyStrategiesOk : String → Bool
  acceptedCiphers : String → Bool
  parseLabelsOk : String → Bool

/-- The `ProxyRunOptions` struct, field for field.  Go `int` becomes `Int`,
`time.Duration` becomes `Int` (nanoseconds), `float32` becomes `Float`,
`[]string` becomes `List String`. -/
structure ProxyRunOptions where
  ServerCert : String
  ServerKey : String
  ServerCaCert : String
  ClusterCert : String
  ClusterKey : String
  ClusterCaCert : String
  Mode : String
  UdsName : String
  DeleteUDSFile : Bool
  ServerPort : Int
  ServerBindAddress : String
  AgentPort : Int
  AgentBindAddress : String
  AdminPort : Int
  AdminBindAddress : String
  HealthPort : Int
  HealthBindAddress : String
  KeepaliveTime : Int
  FrontendKeepaliveTime : Int
  EnableProfiling : Bool
  EnableContentionProfiling : Bool
  ServerID : String
  ServerCount : Int
  AgentNamespace : String
  AgentServiceAccount : String
  AuthenticationAudience : String
  KubeconfigPath : String
  KubeconfigQPS : Float
  KubeconfigBurst : Int
  APIContentType : String
  ProxyStrategies : String
  CipherSuites : List String
  XfrChannelSize : Int
  EnableLeaseController : Bool
  LeaseNamespace : String
  LeaseLabel : String
  NeedsKubernetesClient : Bool

/-- One constructor per `return fmt.Errorf(...)` site of `Validate`, in
source order, carrying the data interpolated into the message. -/
inductive ValidateError where
  | checkServerKey (path : String)
  | serverCertEmptyForKey (key : String)
  | checkServerCert (path : String)
  | serverKeyEmptyForCert (cert : String)
  | checkServerCaCert (path : String)
  | checkClusterKey (path : String)
  | clusterCertEmptyForKey (key : String)
  | checkClusterCert (path : String)
  | clusterKeyEmptyForCert (cert : String)
  | checkClusterCaCert (path : String)
  | badMode (mode : String)
  | udsServerPort (port : Int)
  | udsServerKey
  | udsServerCert
  | udsServerCaCert
  | ephemeralServerPort (port : Int)
  | ephemeralAgentPort (port : Int)
  | ephemeralAdminPort (port : Int)
  | ephemeralHealthPort (port : Int)
  | reservedServerPort (port : Int)
  | reservedAgentPort (port : Int)
  | reservedAdminPort (port : Int)
  | reservedHealthPort (port : Int)
  | contentionProfiling
  | clusterCaCertWithAuth
  | agentNamespaceEmpty
  | agentServiceAccountEmpty
  | authenticationAudienceEmpty
  | checkKubeconfig (path : String)
  | proxyStrategiesEmpty
  | proxyStrategiesInvalid
  | channelSize (size : Int)
  | cipherSuite (name : String)
  | leaseLabel
deriving DecidableEq, Repr

/-- Modelled from the spec: the mode constant pair exported by the server
package (`server.ModeGRPC`); the spec fixes the enumeration to grpc and
http-connect. -/
def ModeGRPC : String := "grpc"

/-- Modelled from the spec: the mode constant pair exported by the server
package (`server.ModeHTTPConnect`). -/
def ModeHTTPConnect : String := "http-connect"

/-- The local `usingServiceAccountAuth` computed at the top of the
service-account block of `Validate`. -/
def usingServiceAccountAuth (o : ProxyRunOptions) : Bool :=
  o.AgentNamespace != "" || o.AgentServiceAccount != "" || o.AuthenticationAudience != ""

/-- The cipher-suite loop of `Validate`: the first configured cipher that is
not in the accepted set, if any. -/
def firstBadCipher (accepted : String → Bool) : List String → Option String
  | [] => none
  | c :: rest => if accepted c = false then some c else firstBadCipher accepted rest

/-- `(*ProxyRunOptions).Validate`, flattened: each early `return err` of the
Go method becomes one `if` arm (the nested Go conditionals all early-return,
so the flattening is condition-for-condition faithful).  The pair returned
is (receiver state after the call, error). -/
def Validate (env : Env) (o : ProxyRunOptions) : ProxyRunOptions × Option ValidateError :=
  if o.ServerKey ≠ "" ∧ isNotExist (env.stat o.ServerKey) = true then
    (o, some (.checkServerKey o.ServerKey))
  else if o.ServerKey ≠ "" ∧ o.ServerCert = "" then
    (o, some (.serverCertEmptyForKey o.ServerKey))
  else if o.ServerCert ≠ "" ∧ isNotExist (env.stat o.ServerCert) = true then
    (o, some (.checkServerCert o.ServerCert))
  else if o.ServerCert ≠ "" ∧ o.ServerKey = "" then
    (o, some (.serverKeyEmptyForCert o.ServerCert))
  else if o.ServerCaCert ≠ "" ∧ isNotExist (env.stat o.ServerCaCert) = true then
    (o, some (.checkServerCaCert o.ServerCaCert))
  else if o.ClusterKey ≠ "" ∧ isNotExist (env.stat o.ClusterKey) = true then
    (o, some (.checkClusterKey o.ClusterKey))
  else if o.ClusterKey ≠ "" ∧ o.ClusterCert = "" then
    (o, some (.clusterCertEmptyForKey o.ClusterKey))
  else if o.ClusterCert ≠ "" ∧ isNotExist (env.stat o.ClusterCert) = true then
    (o, some (.checkClusterCert o.ClusterCert))
  else if o.ClusterCert ≠ "" ∧ o.ClusterKey = "" then
    (o, some (.clusterKeyEmptyForCert o.ClusterCert))
  else if o.ClusterCaCert ≠ "" ∧ isNotExist (env.stat o.ClusterCaCert) = true then
    (o, some (.checkClusterCaCert o.ClusterCaCert))
  else if o.Mode ≠ ModeGRPC ∧ o.Mode ≠ ModeHTTPConnect then
    (o, some (.badMode o.Mode))
  else if o.UdsName ≠ "" ∧ o.ServerPort ≠ 0 then
    (o, some (.udsServerPort o.ServerPort))
  else if o.UdsName ≠ "" ∧ o.ServerKey ≠ "" then
    (o, some .udsServerKey)
  else if o.UdsName ≠ "" ∧ o.ServerCert ≠ "" then
    (o, some .udsServerCert)
  else if o.UdsName ≠ "" ∧ o.ServerCaCert ≠ "" then
    (o, some .udsServerCaCert)
  else if o.ServerPort > 49151 then
    (o, some (.ephemeralServerPort o.ServerPort))
  else if o.AgentPort > 49151 then
    (o, some (.ephemeralAgentPort o.AgentPort))
  else if o.AdminPort > 49151 then
    (o, some (.ephemeralAdminPort o.AdminPort))
  else if o.HealthPort > 49151 then
    (o, some (.ephemeralHealthPort o.HealthPort))
  else if o.ServerPort < 1024 ∧ o.UdsName = "" then
    (o, some (.reservedServerPort o.ServerPort))
  else if o.AgentPort < 1024 then
    (o, some (.reservedAgentPort o.AgentPort))
  else if o.AdminPort < 1024 then
    (o, some (.reservedAdminPort o.AdminPort))
  else if o.HealthPort < 1024 then
    (o, some (.reservedHealthPort o.HealthPort))
  else if o.EnableContentionProfiling = true ∧ o.EnableProfiling = false then
    (o, some .contentionProfiling)
  else if usingServiceAccountAuth o = true ∧ o.ClusterCaCert ≠ "" then
    (o, some .clusterCaCertWithAuth)
  else if usingServiceAccountAuth o = true ∧ o.AgentNamespace = "" then
    (o, some .agentNamespaceEmpty)
  else if usingServiceAccountAuth o = true ∧ o.AgentServiceAccount = "" then
    (o, some .agentServiceAccountEmpty)
  else if usingServiceAccountAuth o = true ∧ o.AuthenticationAudience = "" then
    (o, some .authenticationAudienceEmpty)
  else if o.KubeconfigPath ≠ "" ∧ isNotExist (env.stat o.KubeconfigPath) = true then
    (o, some (.checkKubeconfig o.KubeconfigPath))
  else if o.ProxyStrategies.length = 0 then
    (o, some .proxyStrategiesEmpty)
  else if env.parseProxyStrategiesOk o.ProxyStrategies = false then
    (o, some .proxyStrategiesInvalid)
  else if o.XfrChannelSize ≤ 0 then
    (o, some (.channelSize o.XfrChannelSize))
  else
    match firstBadCipher env.acceptedCiphers o.CipherSuites with
    | some c => (o, some (.cipherSuite c))
    | none =>
      if o.EnableLeaseController = true ∧ env.parseLabelsOk o.LeaseLabel = false then
        (o, some .leaseLabel)
      else
        ({ o with NeedsKubernetesClient :=
             usingServiceAccountAuth o || o.EnableLeaseController }, none)

/-- `NewProxyRunOptions`, with the effectful `defaultServerID()` (environment
variable lookup / fresh UUID) abstracted as the parameter `serverID`.
`NeedsKubernetesClient` is absent from the Go composite literal, so it takes
the zero value `false`. -/
def NewProxyRunOptions (serverID : String) : ProxyRunOptions :=
  { ServerCert := ""
    ServerKey := ""
    ServerCaCert := ""
    ClusterCert := ""
    ClusterKey := ""
    ClusterCaCert := ""
    Mode := "grpc"
    UdsName := ""
    DeleteUDSFile := true
    ServerPort := 8090
    ServerBindAddress := ""
    AgentPort := 8091
    AgentBindAddress := ""
    HealthPort := 8092
    HealthBindAddress := ""
    AdminPort := 8095
    AdminBindAddress := "127.0.0.1"
    KeepaliveTime := 3600000000000
    FrontendKeepaliveTime := 3600000000000
    EnableProfiling := false
    EnableContentionProfiling := false
    ServerID := serverID
    ServerCount := 1
    AgentNamespace := ""
    AgentServiceAccount := ""
    KubeconfigPath := ""
    KubeconfigQPS := 0
    KubeconfigBurst := 0
    APIContentType := "application/vnd.kubernetes.protobuf"
    AuthenticationAudience := ""
    ProxyStrategies := "default"
    CipherSuites := []
    XfrChannelSize := 10
    EnableLeaseController := false
    LeaseNamespace := "kube-system"
    LeaseLabel := "k8s-app=konnectivity-server"
    NeedsKubernetesClient := false }

/-- Splits a character list on commas (structural recursion, so that the
spec model below evaluates by kernel reduction). -/
def splitFieldsComma : List Char → List (List Char)
  | [] => [[]]
  | c :: rest =>
    match splitFieldsComma rest with
    | [] => if c = ',' then [[], []] else [[c]]
    | f :: fs => if c = ',' then [] :: f :: fs else (c :: f) :: fs

/-- Modelled from the spec: `proxystrategies.ParseProxyStrategies` of the
external proxystrategies package succeeds exactly on a comma-separated list
of recognized strategy names; the spec lists the available strategies as
default, destHost and defaultRoute, and requires empty input to be
rejected. -/
def specParseProxyStrategiesOk (s : String) : Bool :=
  (splitFieldsComma s.data).all fun p =>
    p == "default".data || p == "destHost".data || p == "defaultRoute".data

/-- A concrete environment for evaluation: no file exists, strategies parse
per the spec model, no cipher is accepted, no label parses. -/
def env0 : Env :=
  { stat := fun _ => .errNotExist
    parseProxyStrategiesOk := specParseProxyStrategiesOk
    acceptedCiphers := fun _ => false
    parseLabelsOk := fun _ => false }

/-- The path a file-existence error reports, for the seven stat-guarded
checks; `none` for every other error. -/
def errStatPath : ValidateError → Option String
  | .checkServerKey p => some p
  | .checkServerCert p => some p
  | .checkServerCaCert p => some p
  | .checkClusterKey p => some p
  | .checkClusterCert p => some p
  | .checkClusterCaCert p => some p
  | .checkKubeconfig p => some p
  | _ => none

/-- The two frontend cert/key pairing errors. -/
def isFrontendPairingErr : ValidateError → Bool
  | .serverCertEmptyForKey _ => true
  | .serverKeyEmptyForCert _ => true
  | _ => false

/-- The two backend cert/key pairing errors. -/
def isBackendPairingErr : ValidateError → Bool
  | .clusterCertEmptyForKey _ => true
  | .clusterKeyEmptyForCert _ => true
  | _ => false

/-- The eight port-range errors (upper-bound "ephemeral" and lower-bound
"reserved", for the four listeners). -/
def isPortRangeErr : ValidateError → Bool
  | .ephemeralServerPort _ => true
  | .ephemeralAgentPort _ => true
  | .ephemeralAdminPort _ => true
  | .ephemeralHealthPort _ => true
  | .reservedServerPort _ => true
  | .reservedAgentPort _ => true
  | .reservedAdminPort _ => true
  | .reservedHealthPort _ => true
  | _ => false

/-- The branch condition of `Validate` that produces each error, keyed by the
error's constructor (payload equations included). -/
def errCond (env : Env) (o : ProxyRunOptions) : ValidateError → Prop
  | .checkServerKey p => p = o.ServerKey ∧ (o.ServerKey ≠ "" ∧ isNotExist (env.stat o.ServerKey) = true)
  | .serverCertEmptyForKey k => k = o.ServerKey ∧ (o.ServerKey ≠ "" ∧ o.ServerCert = "")
  | .checkServerCert p => p = o.ServerCert ∧ (o.ServerCert ≠ "" ∧ isNotExist (env.stat o.ServerCert) = true)
  | .serverKeyEmptyForCert cert => cert = o.ServerCert ∧ (o.ServerCert ≠ "" ∧ o.ServerKey = "")
  | .checkServerCaCert p => p = o.ServerCaCert ∧ (o.ServerCaCert ≠ "" ∧ isNotExist (env.stat o.ServerCaCert) = true)
  | .checkClusterKey p => p = o.ClusterKey ∧ (o.ClusterKey ≠ "" ∧ isNotExist (env.stat o.ClusterKey) = true)
  | .clusterCertEmptyForKey k => k = o.ClusterKey ∧ (o.ClusterKey ≠ "" ∧ o.ClusterCert = "")
  | .checkClusterCert p => p = o.ClusterCert ∧ (o.ClusterCert ≠ "" ∧ isNotExist (env.stat o.ClusterCert) = true)
  | .clusterKeyEmptyForCert cert => cert = o.ClusterCert ∧ (o.ClusterCert ≠ "" ∧ o.ClusterKey = "")
  | .checkClusterCaCert p => p = o.ClusterCaCert ∧ (o.ClusterCaCert ≠ "" ∧ isNotExist (env.stat o.ClusterCaCert) = true)
  | .badMode m => m = o.Mode ∧ (o.Mode ≠ ModeGRPC ∧ o.Mode ≠ ModeHTTPConnect)
  | .udsServerPort p => p = o.ServerPort ∧ (o.UdsName ≠ "" ∧ o.ServerPort ≠ 0)
  | .udsServerKey => o.UdsName ≠ "" ∧ o.ServerKey ≠ ""
  | .udsServerCert => o.UdsName ≠ "" ∧ o.ServerCert ≠ ""
  | .udsServerCaCert => o.UdsName ≠ "" ∧ o.ServerCaCert ≠ ""
  | .ephemeralServerPort p => p = o.ServerPort ∧ o.ServerPort > 49151
  | .ephemeralAgentPort p => p = o.AgentPort ∧ o.AgentPort > 49151
  | .ephemeralAdminPort p => p = o.AdminPort ∧ o.AdminPort > 49151
  | .ephemeralHealthPort p => p = o.HealthPort ∧ o.HealthPort > 49151
  | .reservedServerPort p => p = o.ServerPort ∧ (o.ServerPort < 1024 ∧ o.UdsName = "")
  | .reservedAgentPort p => p = o.AgentPort ∧ o.AgentPort < 1024
  | .reservedAdminPort p => p = o.AdminPort ∧ o.AdminPort < 1024
  | .reservedHealthPort p => p = o.HealthPort ∧ o.HealthPort < 1024
  | .contentionProfiling => o.EnableContentionProfiling = true ∧ o.EnableProfiling = false
  | .clusterCaCertWithAuth => usingServiceAccountAuth o = true ∧ o.ClusterCaCert ≠ ""
  | .agentNamespaceEmpty => usingServiceAccountAuth o = true ∧ o.AgentNamespace = ""
  | .agentServiceAccountEmpty => usingServiceAccountAuth o = true ∧ o.AgentServiceAccount = ""
  | .authenticationAudienceEmpty => usingServiceAccountAuth o = true ∧ o.AuthenticationAudience = ""
  | .checkKubeconfig p => p = o.KubeconfigPath ∧ (o.KubeconfigPath ≠ "" ∧ isNotExist (env.stat o.KubeconfigPath) = true)
  | .proxyStrategiesEmpty => o.ProxyStrategies.length = 0
  | .proxyStrategiesInvalid => env.parseProxyStrategiesOk o.ProxyStrategies = false
  | .channelSize s => s = o.XfrChannelSize ∧ o.XfrChannelSize ≤ 0
  | .cipherSuite c => firstBadCipher env.acceptedCiphers o.CipherSuites = some c
  | .leaseLabel => o.EnableLeaseController = true ∧ env.parseLabelsOk o.LeaseLabel = false

/-- Spec reading of the validator as an ordered rule list: frontend server
key file-existence rule. -/
def ruleServerKeyStat (env : Env) (o : ProxyRunOptions) : Option ValidateError :=
  if o.ServerKey ≠ "" ∧ isNotExist (env.stat o.ServerKey) = true then
    some (.checkServerKey o.ServerKey) else none

/-- Spec rule: a set server key requires a server cert. -/
def ruleServerKeyPairing (o : ProxyRunOptions) : Option ValidateError :=
  if o.ServerKey ≠ "" ∧ o.ServerCert = "" then
    some (.serverCertEmptyForKey o.ServerKey) else none

/-- Spec rule: frontend server cert file-existence. -/
def ruleServerCertStat (env : Env) (o : ProxyRunOptions) : Option ValidateError :=
  if o.ServerCert ≠ "" ∧ isNotExist (env.stat o.ServerCert) = true then
    some (.checkServerCert o.ServerCert) else none

/-- Spec rule: a set server cert requires a server key. -/
def ruleServerCertPairing (o : ProxyRunOptions) : Option ValidateError :=
  if o.ServerCert ≠ "" ∧ o.ServerKey = "" then
    some (.serverKeyEmptyForCert o.ServerCert) else none

/-- Spec rule: frontend CA cert file-existence. -/
def ruleServerCaStat (env : Env) (o : ProxyRunOptions) : Option ValidateError :=
  if o.ServerCaCert ≠ "" ∧ isNotExist (env.stat o.ServerCaCert) = true then
    some (.checkServerCaCert o.ServerCaCert) else none

/-- Spec rule: backend cluster key file-existence. -/
def ruleClusterKeyStat (env : Env) (o : ProxyRunOptions) : Option ValidateError :=
  if o.ClusterKey ≠ "" ∧ isNotExist (env.stat o.ClusterKey) = true then
    some (.checkClusterKey o.ClusterKey) else none

/-- Spec rule: a set cluster key requires a cluster cert. -/
def ruleClusterKeyPairing (o : ProxyRunOptions) : Option ValidateError :=
  if o.ClusterKey ≠ "" ∧ o.ClusterCert = "" then
    some (.clusterCertEmptyForKey o.ClusterKey) else none

/-- Spec rule: backend cluster cert file-existence. -/
def ruleClusterCertStat (env : Env) (o : ProxyRunOptions) : Option ValidateError :=
  if o.ClusterCert ≠ "" ∧ isNotExist (env.stat o.ClusterCert) = true then
    some (.checkClusterCert o.ClusterCert) else none

/-- Spec rule: a set cluster cert requires a cluster key. -/
def ruleClusterCertPairing (o : ProxyRunOptions) : Option ValidateError :=
  if o.ClusterCert ≠ "" ∧ o.ClusterKey = "" then
    some (.clusterKeyEmptyForCert o.ClusterCert) else none

/-- Spec rule: backend CA cert file-existence. -/
def ruleClusterCaStat (env : Env) (o : ProxyRunOptions) : Option ValidateError :=
  if o.ClusterCaCert ≠ "" ∧ isNotExist (env.stat o.ClusterCaCert) = true then
    some (.checkClusterCaCert o.ClusterCaCert) else none

/-- Spec rule: the mode enumeration check. -/
def ruleMode (o : ProxyRunOptions) : Option ValidateError :=
  if o.Mode ≠ ModeGRPC ∧ o.Mode ≠ ModeHTTPConnect then
    some (.badMode o.Mode) else none

/-- Spec rule: UDS exclusivity, server port must be 0. -/
def ruleUdsPort (o : ProxyRunOptions) : Option ValidateError :=
  if o.UdsName ≠ "" ∧ o.ServerPort ≠ 0 then
    some (.udsServerPort o.ServerPort) else none

/-- Spec rule: UDS exclusivity, no server key. -/
def ruleUdsKey (o : ProxyRunOptions) : Option ValidateError :=
  if o.UdsName ≠ "" ∧ o.ServerKey ≠ "" then some .udsServerKey else none

/-- Spec rule: UDS exclusivity, no server cert. -/
def ruleUdsCert (o : ProxyRunOptions) : Option ValidateError :=
  if o.UdsName ≠ "" ∧ o.ServerCert ≠ "" then some .udsServerCert else none

/-- Spec rule: UDS exclusivity, no server CA cert. -/
def ruleUdsCa (o : ProxyRunOptions) : Option ValidateError :=
  if o.UdsName ≠ "" ∧ o.ServerCaCert ≠ "" then some .udsServerCaCert else none

/-- Spec rule: server port upper bound. -/
def ruleServerPortUpper (o : ProxyRunOptions) : Option ValidateError :=
  if o.ServerPort > 49151 then some (.ephemeralServerPort o.ServerPort) else none

/-- Spec rule: agent port upper bound. -/
def ruleAgentPortUpper (o : ProxyRunOptions) : Option ValidateError :=
  if o.AgentPort > 49151 then some (.ephemeralAgentPort o.AgentPort) else none

/-- Spec rule: admin port upper bound. -/
def ruleAdminPortUpper (o : ProxyRunOptions) : Option ValidateError :=
  if o.AdminPort > 49151 then some (.ephemeralAdminPort o.AdminPort) else none

/-- Spec rule: health port upper bound. -/
def ruleHealthPortUpper (o : ProxyRunOptions) : Option ValidateError :=
  if o.HealthPort > 49151 then some (.ephemeralHealthPort o.HealthPort) else none

/-- Spec rule: server port lower bound (suspended under UDS). -/
def ruleServerPortLower (o : ProxyRunOptions) : Option ValidateError :=
  if o.ServerPort < 1024 ∧ o.UdsName = "" then
    some (.reservedServerPort o.ServerPort) else none

/-- Spec rule: agent port lower bound. -/
def ruleAgentPortLower (o : ProxyRunOptions) : Option ValidateError :=
  if o.AgentPort < 1024 then some (.reservedAgentPort o.AgentPort) else none

/-- Spec rule: admin port lower bound. -/
def ruleAdminPortLower (o : ProxyRunOptions) : Option ValidateError :=
  if o.AdminPort < 1024 then some (.reservedAdminPort o.AdminPort) else none

/-- Spec rule: health port lower bound. -/
def ruleHealthPortLower (o : ProxyRunOptions) : Option ValidateError :=
  if o.HealthPort < 1024 then some (.reservedHealthPort o.HealthPort) else none

/-- Spec rule: contention profiling requires profiling. -/
def ruleProfiling (o : ProxyRunOptions) : Option ValidateError :=
  if o.EnableContentionProfiling = true ∧ o.EnableProfiling = false then
    some .contentionProfiling else none

/-- Spec rule: no backend CA under service-account authentication. -/
def ruleAuthCa (o : ProxyRunOptions) : Option ValidateError :=
  if usingServiceAccountAuth o = true ∧ o.ClusterCaCert ≠ "" then
    some .clusterCaCertWithAuth else none

/-- Spec rule: agent namespace required under service-account authentication. -/
def ruleAuthNamespace (o : ProxyRunOptions) : Option ValidateError :=
  if usingServiceAccountAuth o = true ∧ o.AgentNamespace = "" then
    some .agentNamespaceEmpty else none

/-- Spec rule: service account required under service-account authentication. -/
def ruleAuthServiceAccount (o : ProxyRunOptions) : Option ValidateError :=
  if usingServiceAccountAuth o = true ∧ o.AgentServiceAccount = "" then
    some .agentServiceAccountEmpty else none

/-- Spec rule: audience required under service-account authentication. -/
def ruleAuthAudience (o : ProxyRunOptions) : Option ValidateError :=
  if usingServiceAccountAuth o = true ∧ o.AuthenticationAudience = "" then
    some .authenticationAudienceEmpty else none

/-- Spec rule: kubeconfig file-existence. -/
def ruleKubeconfigStat (env : Env) (o : ProxyRunOptions) : Option ValidateError :=
  if o.KubeconfigPath ≠ "" ∧ isNotExist (env.stat o.KubeconfigPath) = true then
    some (.checkKubeconfig o.KubeconfigPath) else none

/-- Spec rule: proxy strategies must be non-empty. -/
def ruleStrategiesNonEmpty (o : ProxyRunOptions) : Option ValidateError :=
  if o.ProxyStrategies.length = 0 then some .proxyStrategiesEmpty else none

/-- Spec rule: proxy strategies must parse. -/
def ruleStrategiesParse (env : Env) (o : ProxyRunOptions) : Option ValidateError :=
  if env.parseProxyStrategiesOk o.ProxyStrategies = false then
    some .proxyStrategiesInvalid else none

/-- Spec rule: channel size must be strictly positive. -/
def ruleChannelSize (o : ProxyRunOptions) : Option ValidateError :=
  if o.XfrChannelSize ≤ 0 then some (.channelSize o.XfrChannelSize) else none

/-- Spec rule: every configured cipher must be accepted. -/
def ruleCipherSuites (env : Env) (o : ProxyRunOptions) : Option ValidateError :=
  match firstBadCipher env.acceptedCiphers o.CipherSuites with
  | some c => some (.cipherSuite c)
  | none => none

/-- Spec rule: the lease label must parse when the lease controller is on. -/
def ruleLeaseLabel (env : Env) (o : ProxyRunOptions) : Option ValidateError :=
  if o.EnableLeaseController = true ∧ env.parseLabelsOk o.LeaseLabel = false then
    some .leaseLabel else none

/-- Runs an ordered list of rules, returning the first error produced. -/
def runChecks : List (ProxyRunOptions → Option ValidateError) → ProxyRunOptions →
    Option ValidateError
  | [], _ => none
  | c :: rest, o =>
    match c o with
    | some e => some e
    | none => runChecks rest o

/-- Wraps a rule-list outcome the way `Validate` ends: an error leaves the
struct untouched; success writes the derived field. -/
def finishChecks (o : ProxyRunOptions) : Option ValidateError →
    ProxyRunOptions × Option ValidateError
  | some e => (o, some e)
  | none => ({ o with NeedsKubernetesClient :=
      usingServiceAccountAuth o || o.EnableLeaseController }, none)

/-- The validator as the spec describes it, with the port-range rules in the
order the code actually uses: the four upper-bound rules for
server/agent/admin/health, then the four lower-bound rules in the same
listener order. -/
def specOrderedChecks (env : Env) : List (ProxyRunOptions → Option ValidateError) :=
  [ ruleServerKeyStat env, ruleServerKeyPairing, ruleServerCertStat env,
    ruleServerCertPairing, ruleServerCaStat env,
    ruleClusterKeyStat env, ruleClusterKeyPairing, ruleClusterCertStat env,
    ruleClusterCertPairing, ruleClusterCaStat env,
    ruleMode, ruleUdsPort, ruleUdsKey, ruleUdsCert, ruleUdsCa,
    ruleServerPortUpper, ruleAgentPortUpper, ruleAdminPortUpper, ruleHealthPortUpper,
    ruleServerPortLower, ruleAgentPortLower, ruleAdminPortLower, ruleHealthPortLower,
    ruleProfiling, ruleAuthCa, ruleAuthNamespace, ruleAuthServiceAccount,
    ruleAuthAudience, ruleKubeconfigStat env, ruleStrategiesNonEmpty,
    ruleStrategiesParse env, ruleChannelSize, ruleCipherSuites env,
    ruleLeaseLabel env ]

/-- The rule list in the order the claim states it: each listener's full
range check (upper then lower bound) before the next listener's. -/
def claimOrderChecks (env : Env) : List (ProxyRunOptions → Option ValidateError) :=
  [ ruleServerKeyStat env, ruleServerKeyPairing, ruleServerCertStat env,
    ruleServerCertPairing, ruleServerCaStat env,
    ruleClusterKeyStat env, ruleClusterKeyPairing, ruleClusterCertStat env,
    ruleClusterCertPairing, ruleClusterCaStat env,
    ruleMode, ruleUdsPort, ruleUdsKey, ruleUdsCert, ruleUdsCa,
    ruleServerPortUpper, ruleServerPortLower,
    ruleAgentPortUpper, ruleAgentPortLower,
    ruleAdminPortUpper, ruleAdminPortLower,
    ruleHealthPortUpper, ruleHealthPortLower,
    ruleProfiling, ruleAuthCa, ruleAuthNamespace, ruleAuthServiceAccount,
    ruleAuthAudience, ruleKubeconfigStat env, ruleStrategiesNonEmpty,
    ruleStrategiesParse env, ruleChannelSize, ruleCipherSuites env,
    ruleLeaseLabel env ]

/-- The reference validator evaluating the spec-ordered rule list. -/
def ValidateSpecOrdered (env : Env) (o : ProxyRunOptions) :
    ProxyRunOptions × Option ValidateError :=
  finishChecks o (runChecks (specOrderedChecks env) o)

/-- The reference validator evaluating the claim-ordered rule list. -/
def ValidateClaimOrder (env : Env) (o : ProxyRunOptions) :
    ProxyRunOptions × Option ValidateError :=
  finishChecks o (runChecks (claimOrderChecks env) o)

/-- An environment in which every stat succeeds (used to exercise the
pairing checks with existing files). -/
def envOk : Env := { env0 with stat := fun _ => .ok }

@[simp]
theorem isNotExist_eq_true_iff (s : StatResult) :
    isNotExist s = true ↔ s = .errNotExist := by
  cases s <;> simp [isNotExist]

theorem usingServiceAccountAuth_eq_true_iff (o : ProxyRunOptions) :
    usingServiceAccountAuth o = true ↔
      (o.AgentNamespace ≠ "" ∨ o.AgentServiceAccount ≠ "" ∨
       o.AuthenticationAudience ≠ "") := by
  simp [usingServiceAccountAuth, or_assoc]

/-- Stepping lemma for the success-side inversion: an error arm of the chain
was not taken, and the rest of the chain also succeeded. -/
theorem ite_err_none {c : Prop} [Decidable c] {o : ProxyRunOptions}
    {e : ValidateError} {rest : ProxyRunOptions × Option ValidateError}
    (h : (if c then (o, some e) else rest).2 = none) : ¬c ∧ rest.2 = none := by
  by_cases hc : c
  · rw [if_pos hc] at h
    exact absurd h (by simp)
  · rw [if_neg hc] at h
    exact ⟨hc, h⟩

/-- Stepping lemma for the error-side inversion: either this arm fired and
produced the error, or the rest of the chain produced it. -/
theorem ite_err_some {c : Prop} [Decidable c] {o : ProxyRunOptions}
    {eb e : ValidateError} {rest : ProxyRunOptions × Option ValidateError}
    (h : (if c then (o, some eb) else rest).2 = some e) :
    (c ∧ e = eb) ∨ rest.2 = some e := by
  by_cases hc : c
  · rw [if_pos hc] at h
    exact Or.inl ⟨hc, (Option.some.inj h).symm⟩
  · rw [if_neg hc] at h
    exact Or.inr h

/-- A property holding on both arms of an `if` holds on the `if`. -/
theorem ite_shape {α : Sort u} (P : α → Prop) (c : Prop) [Decidable c]
    {a b : α} (ha : P a) (hb : P b) : P (if c then a else b) := by
  by_cases hc : c
  · rwa [if_pos hc]
  · rwa [if_neg hc]

/-- Master inversion: a run of `Validate` that returns no error passed every
non-filesystem check of the chain. -/
theorem validate_none_conds (env : Env) (o : ProxyRunOptions)
    (h : (Validate env o).2 = none) :
    ¬(o.ServerKey ≠ "" ∧ isNotExist (env.stat o.ServerKey) = true) ∧
    ¬(o.ServerKey ≠ "" ∧ o.ServerCert = "") ∧
    ¬(o.ServerCert ≠ "" ∧ isNotExist (env.stat o.ServerCert) = true) ∧
    ¬(o.ServerCert ≠ "" ∧ o.ServerKey = "") ∧
    ¬(o.ServerCaCert ≠ "" ∧ isNotExist (env.stat o.ServerCaCert) = true) ∧
    ¬(o.ClusterKey ≠ "" ∧ isNotExist (env.stat o.ClusterKey) = true) ∧
    ¬(o.ClusterKey ≠ "" ∧ o.ClusterCert = "") ∧
    ¬(o.ClusterCert ≠ "" ∧ isNotExist (env.stat o.ClusterCert) = true) ∧
    ¬(o.ClusterCert ≠ "" ∧ o.ClusterKey = "") ∧
    ¬(o.ClusterCaCert ≠ "" ∧ isNotExist (env.stat o.ClusterCaCert) = true) ∧
    ¬(o.Mode ≠ ModeGRPC ∧ o.Mode ≠ ModeHTTPConnect) ∧
    ¬(o.UdsName ≠ "" ∧ o.ServerPort ≠ 0) ∧
    ¬(o.UdsName ≠ "" ∧ o.ServerKey ≠ "") ∧
    ¬(o.UdsName ≠ "" ∧ o.ServerCert ≠ "") ∧
    ¬(o.UdsName ≠ "" ∧ o.ServerCaCert ≠ "") ∧
    ¬(o.ServerPort > 49151) ∧
    ¬(o.AgentPort > 49151) ∧
    ¬(o.AdminPort > 49151) ∧
    ¬(o.HealthPort > 49151) ∧
    ¬(o.ServerPort < 1024 ∧ o.UdsName = "") ∧
    ¬(o.AgentPort < 1024) ∧
    ¬(o.AdminPort < 1024) ∧
    ¬(o.HealthPort < 1024) ∧
    ¬(o.EnableContentionProfiling = true ∧ o.EnableProfiling = false) ∧
    ¬(usingServiceAccountAuth o = true ∧ o.ClusterCaCert ≠ "") ∧
    ¬(usingServiceAccountAuth o = true ∧ o.AgentNamespace = "") ∧
    ¬(usingServiceAccountAuth o = true ∧ o.AgentServiceAccount = "") ∧
    ¬(usingServiceAccountAuth o = true ∧ o.AuthenticationAudience = "") ∧
    ¬(o.KubeconfigPath ≠ "" ∧ isNotExist (env.stat o.KubeconfigPath) = true) ∧
    ¬(o.ProxyStrategies.length = 0) ∧
    ¬(env.parseProxyStrategiesOk o.ProxyStrategies = false) ∧
    ¬(o.XfrChannelSize ≤ 0) ∧
    firstBadCipher env.acceptedCiphers o.CipherSuites = none ∧
    ¬(o.EnableLeaseController = true ∧ env.parseLabelsOk o.LeaseLabel = false) := by
  unfold Validate at h
  obtain ⟨h1, h⟩ := ite_err_none h
  obtain ⟨h2, h⟩ := ite_err_none h
  obtain ⟨h3, h⟩ := ite_err_none h
  obtain ⟨h4, h⟩ := ite_err_none h
  obtain ⟨h5, h⟩ := ite_err_none h
  obtain ⟨h6, h⟩ := ite_err_none h
  obtain ⟨h7, h⟩ := ite_err_none h
  obtain ⟨h8, h⟩ := ite_err_none h
  obtain ⟨h9, h⟩ := ite_err_none h
  obtain ⟨h10, h⟩ := ite_err_none h
  obtain ⟨h11, h⟩ := ite_err_none h
  obtain ⟨h12, h⟩ := ite_err_none h
  obtain ⟨h13, h⟩ := ite_err_none h
  obtain ⟨h14, h⟩ := ite_err_none h
  obtain ⟨h15, h⟩ := ite_err_none h
  obtain ⟨h16, h⟩ := ite_err_none h
  obtain ⟨h17, h⟩ := ite_err_none h
  obtain ⟨h18, h⟩ := ite_err_none h
  obtain ⟨h19, h⟩ := ite_err_none h
  obtain ⟨h20, h⟩ := ite_err_none h
  obtain ⟨h21, h⟩ := ite_err_none h
  obtain ⟨h22, h⟩ := ite_err_none h
  obtain ⟨h23, h⟩ := ite_err_none h
  obtain ⟨h24, h⟩ := ite_err_none h
  obtain ⟨h25, h⟩ := ite_err_none h
  obtain ⟨h26, h⟩ := ite_err_none h
  obtain ⟨h27, h⟩ := ite_err_none h
  obtain ⟨h28, h⟩ := ite_err_none h
  obtain ⟨h29, h⟩ := ite_err_none h
  obtain ⟨h30, h⟩ := ite_err_none h
  obtain ⟨h31, h⟩ := ite_err_none h
  obtain ⟨h32, h⟩ := ite_err_none h
  cases hfb : firstBadCipher env.acceptedCiphers o.CipherSuites with
  | some c =>
    rw [hfb] at h
    exact absurd h (by simp)
  | none =>
    rw [hfb] at h
    obtain ⟨h33, h⟩ := ite_err_none h
    exact ⟨h1, h2, h3, h4, h5, h6, h7, h8, h9, h10, h11, h12, h13, h14, h15,
      h16, h17, h18, h19, h20, h21, h22, h23, h24, h25, h26, h27, h28, h29,
      h30, h31, h32, rfl, h33⟩

/-- Master inversion on the error side: whichever error `Validate` returns,
the branch condition that produces that error held. -/
theorem validate_some_cond (env : Env) (o : ProxyRunOptions) (e : ValidateError)
    (h : (Validate env o).2 = some e) : errCond env o e := by
  unfold Validate at h
  rcases ite_err_some h with ⟨hc, rfl⟩ | h
  · exact ⟨rfl, hc⟩
  rcases ite_err_some h with ⟨hc, rfl⟩ | h
  · exact ⟨rfl, hc⟩
  rcases ite_err_some h with ⟨hc, rfl⟩ | h
  · exact ⟨rfl, hc⟩
  rcases ite_err_some h with ⟨hc, rfl⟩ | h
  · exact ⟨rfl, hc⟩
  rcases ite_err_some h with ⟨hc, rfl⟩ | h
  · exact ⟨rfl, hc⟩
  rcases ite_err_some h with ⟨hc, rfl⟩ | h
  · exact ⟨rfl, hc⟩
  rcases ite_err_some h with ⟨hc, rfl⟩ | h
  · exact ⟨rfl, hc⟩
  rcases ite_err_some h with ⟨hc, rfl⟩ | h
  · exact ⟨rfl, hc⟩
  rcases ite_err_some h with ⟨hc, rfl⟩ | h
  · exact ⟨rfl, hc⟩
  rcases ite_err_some h with ⟨hc, rfl⟩ | h
  · exact ⟨rfl, hc⟩
  rcases ite_err_some h with ⟨hc, rfl⟩ | h
  · exact ⟨rfl, hc⟩
  rcases ite_err_some h with ⟨hc, rfl⟩ | h
  · exact ⟨rfl, hc⟩
  rcases ite_err_some h with ⟨hc, rfl⟩ | h
  · exact hc
  rcases ite_err_some h with ⟨hc, rfl⟩ | h
  · exact hc
  rcases ite_err_some h with ⟨hc, rfl⟩ | h
  · exact hc
  rcases ite_err_some h with ⟨hc, rfl⟩ | h
  · exact ⟨rfl, hc⟩
  rcases ite_err_some h with ⟨hc, rfl⟩ | h
  · exact ⟨rfl, hc⟩
  rcases ite_err_some h with ⟨hc, rfl⟩ | h
  · exact ⟨rfl, hc⟩
  rcases ite_err_some h with ⟨hc, rfl⟩ | h
  · exact ⟨rfl, hc⟩
  rcases ite_err_some h with ⟨hc, rfl⟩ | h
  · exact ⟨rfl, hc⟩
  rcases ite_err_some h with ⟨hc, rfl⟩ | h
  · exact ⟨rfl, hc⟩
  rcases ite_err_some h with ⟨hc, rfl⟩ | h
  · exact ⟨rfl, hc⟩
  rcases ite_err_some h with ⟨hc, rfl⟩ | h
  · exact ⟨rfl, hc⟩
  rcases ite_err_some h with ⟨hc, rfl⟩ | h
  · exact hc
  rcases ite_err_some h with ⟨hc, rfl⟩ | h
  · exact hc
  rcases ite_err_some h with ⟨hc, rfl⟩ | h
  · exact hc
  rcases ite_err_some h with ⟨hc, rfl⟩ | h
  · exact hc
  rcases ite_err_some h with ⟨hc, rfl⟩ | h
  · exact hc
  rcases ite_err_some h with ⟨hc, rfl⟩ | h
  · exact ⟨rfl, hc⟩
  rcases ite_err_some h with ⟨hc, rfl⟩ | h
  · exact hc
  rcases ite_err_some h with ⟨hc, rfl⟩ | h
  · exact hc
  rcases ite_err_some h with ⟨hc, rfl⟩ | h
  · exact ⟨rfl, hc⟩
  cases hfb : firstBadCipher env.acceptedCiphers o.CipherSuites with
  | some c =>
    rw [hfb] at h
    obtain rfl := (Option.some.inj h).symm
    exact hfb
  | none =>
    rw [hfb] at h
    rcases ite_err_some h with ⟨hc, rfl⟩ | h
    · exact hc
    · exact absurd h (by simp)

/-- `Validate` either succeeds, returning the input with only the derived
`NeedsKubernetesClient` field written, or fails, returning the input
untouched together with some error. -/
theorem validate_shape (env : Env) (o : ProxyRunOptions) :
    Validate env o = ({ o with NeedsKubernetesClient :=
        usingServiceAccountAuth o || o.EnableLeaseController }, none) ∨
    ∃ e, Validate env o = (o, some e) := by
  unfold Validate
  iterate 32
    (apply ite_shape (fun r => r = _ ∨ ∃ e, r = (o, some e)) <;>
      try exact Or.inr ⟨_, rfl⟩)
  cases hfb : firstBadCipher env.acceptedCiphers o.CipherSuites with
  | some c =>
    exact Or.inr ⟨_, rfl⟩
  | none =>
    apply ite_shape (fun r => r = _ ∨ ∃ e, r = (o, some e)) <;>
      first
        | exact Or.inr ⟨_, rfl⟩
        | exact Or.inl rfl

/-- Sufficiency: when every branch condition of the chain is false, `Validate`
succeeds. -/
theorem validate_all_neg_none (env : Env) (o : ProxyRunOptions)
    (h1 : ¬(o.ServerKey ≠ "" ∧ isNotExist (env.stat o.ServerKey) = true))
    (h2 : ¬(o.ServerKey ≠ "" ∧ o.ServerCert = ""))
    (h3 : ¬(o.ServerCert ≠ "" ∧ isNotExist (env.stat o.ServerCert) = true))
    (h4 : ¬(o.ServerCert ≠ "" ∧ o.ServerKey = ""))
    (h5 : ¬(o.ServerCaCert ≠ "" ∧ isNotExist (env.stat o.ServerCaCert) = true))
    (h6 : ¬(o.ClusterKey ≠ "" ∧ isNotExist (env.stat o.ClusterKey) = true))
    (h7 : ¬(o.ClusterKey ≠ "" ∧ o.ClusterCert = ""))
    (h8 : ¬(o.ClusterCert ≠ "" ∧ isNotExist (env.stat o.ClusterCert) = true))
    (h9 : ¬(o.ClusterCert ≠ "" ∧ o.ClusterKey = ""))
    (h10 : ¬(o.ClusterCaCert ≠ "" ∧ isNotExist (env.stat o.ClusterCaCert) = true))
    (h11 : ¬(o.Mode ≠ ModeGRPC ∧ o.Mode ≠ ModeHTTPConnect))
    (h12 : ¬(o.UdsName ≠ "" ∧ o.ServerPort ≠ 0))
    (h13 : ¬(o.UdsName ≠ "" ∧ o.ServerKey ≠ ""))
    (h14 : ¬(o.UdsName ≠ "" ∧ o.ServerCert ≠ ""))
    (h15 : ¬(o.UdsName ≠ "" ∧ o.ServerCaCert ≠ ""))
    (h16 : ¬(o.ServerPort > 49151))
    (h17 : ¬(o.AgentPort > 49151))
    (h18 : ¬(o.AdminPort > 49151))
    (h19 : ¬(o.HealthPort > 49151))
    (h20 : ¬(o.ServerPort < 1024 ∧ o.UdsName = ""))
    (h21 : ¬(o.AgentPort < 1024))
    (h22 : ¬(o.AdminPort < 1024))
    (h23 : ¬(o.HealthPort < 1024))
    (h24 : ¬(o.EnableContentionProfiling = true ∧ o.EnableProfiling = false))
    (h25 : ¬(usingServiceAccountAuth o = true ∧ o.ClusterCaCert ≠ ""))
    (h26 : ¬(usingServiceAccountAuth o = true ∧ o.AgentNamespace = ""))
    (h27 : ¬(usingServiceAccountAuth o = true ∧ o.AgentServiceAccount = ""))
    (h28 : ¬(usingServiceAccountAuth o = true ∧ o.AuthenticationAudience = ""))
    (h29 : ¬(o.KubeconfigPath ≠ "" ∧ isNotExist (env.stat o.KubeconfigPath) = true))
    (h30 : ¬(o.ProxyStrategies.length = 0))
    (h31 : ¬(env.parseProxyStrategiesOk o.ProxyStrategies = false))
    (h32 : ¬(o.XfrChannelSize ≤ 0))
    (hfb : firstBadCipher env.acceptedCiphers o.CipherSuites = none)
    (h33 : ¬(o.EnableLeaseController = true ∧ env.parseLabelsOk o.LeaseLabel = false)) :
    (Validate env o).2 = none := by
  unfold Validate
  rw [if_neg h1, if_neg h2, if_neg h3, if_neg h4, if_neg h5, if_neg h6,
    if_neg h7, if_neg h8, if_neg h9, if_neg h10, if_neg h11, if_neg h12,
    if_neg h13, if_neg h14, if_neg h15, if_neg h16, if_neg h17, if_neg h18,
    if_neg h19, if_neg h20, if_neg h21, if_neg h22, if_neg h23, if_neg h24,
    if_neg h25, if_neg h26, if_neg h27, if_neg h28, if_neg h29, if_neg h30,
    if_neg h31, if_neg h32, hfb]
  rw [if_neg h33]

/-- C2 (amended): `Validate` evaluates its constraints exactly as the
spec-ordered, fail-fast rule list: frontend TLS triple, backend TLS triple,
mode, UDS exclusivity, the four upper-bound port rules in
server/agent/admin/health order, then the four lower-bound port rules in the
same order, profiling dependency, service-account block, kubeconfig,
proxy strategies, channel size, cipher suites, lease label; for every
environment and config the returned state and error coincide with running
that rule list and reporting the first violation. -/
theorem validate_matches_spec_ordered_checks (env : Env) (o : ProxyRunOptions) :
    Validate env o = ValidateSpecOrdered env o := by
  unfold Validate ValidateSpecOrdered specOrderedChecks
  simp only [runChecks, ruleServerKeyStat, ruleServerKeyPairing, ruleServerCertStat,
    ruleServerCertPairing, ruleServerCaStat, ruleClusterKeyStat, ruleClusterKeyPairing,
    ruleClusterCertStat, ruleClusterCertPairing, ruleClusterCaStat, ruleMode,
    ruleUdsPort, ruleUdsKey, ruleUdsCert, ruleUdsCa, ruleServerPortUpper,
    ruleAgentPortUpper, ruleAdminPortUpper, ruleHealthPortUpper, ruleServerPortLower,
    ruleAgentPortLower, ruleAdminPortLower, ruleHealthPortLower, ruleProfiling,
    ruleAuthCa, ruleAuthNamespace, ruleAuthServiceAccount, ruleAuthAudience,
    ruleKubeconfigStat, ruleStrategiesNonEmpty, ruleStrategiesParse, ruleChannelSize,
    ruleCipherSuites, ruleLeaseLabel]
  by_cases h1 : o.ServerKey ≠ "" ∧ isNotExist (env.stat o.ServerKey) = true
  · simp only [if_pos h1]; rfl
  simp only [if_neg h1]
  by_cases h2 : o.ServerKey ≠ "" ∧ o.ServerCert = ""
  · simp only [if_pos h2]; rfl
  simp only [if_neg h2]
  by_cases h3 : o.ServerCert ≠ "" ∧ isNotExist (env.stat o.ServerCert) = true
  · simp only [if_pos h3]; rfl
  simp only [if_neg h3]
  by_cases h4 : o.ServerCert ≠ "" ∧ o.ServerKey = ""
  · simp only [if_pos h4]; rfl
  simp only [if_neg h4]
  by_cases h5 : o.ServerCaCert ≠ "" ∧ isNotExist (env.stat o.ServerCaCert) = true
  · simp only [if_pos h5]; rfl
  simp only [if_neg h5]
  by_cases h6 : o.ClusterKey ≠ "" ∧ isNotExist (env.stat o.ClusterKey) = true
  · simp only [if_pos h6]; rfl
  simp only [if_neg h6]
  by_cases h7 : o.ClusterKey ≠ "" ∧ o.ClusterCert = ""
  · simp only [if_pos h7]; rfl
  simp only [if_neg h7]
  by_cases h8 : o.ClusterCert ≠ "" ∧ isNotExist (env.stat o.ClusterCert) = true
  · simp only [if_pos h8]; rfl
  simp only [if_neg h8]
  by_cases h9 : o.ClusterCert ≠ "" ∧ o.ClusterKey = ""
  · simp only [if_pos h9]; rfl
  simp only [if_neg h9]
  by_cases h10 : o.ClusterCaCert ≠ "" ∧ isNotExist (env.stat o.ClusterCaCert) = true
  · simp only [if_pos h10]; rfl
  simp only [if_neg h10]
  by_cases h11 : o.Mode ≠ ModeGRPC ∧ o.Mode ≠ ModeHTTPConnect
  · simp only [if_pos h11]; rfl
  simp only [if_neg h11]
  by_cases h12 : o.UdsName ≠ "" ∧ o.ServerPort ≠ 0
  · simp only [if_pos h12]; rfl
  simp only [if_neg h12]
  by_cases h13 : o.UdsName ≠ "" ∧ o.ServerKey ≠ ""
  · simp only [if_pos h13]; rfl
  simp only [if_neg h13]
  by_cases h14 : o.UdsName ≠ "" ∧ o.ServerCert ≠ ""
  · simp only [if_pos h14]; rfl
  simp only [if_neg h14]
  by_cases h15 : o.UdsName ≠ "" ∧ o.ServerCaCert ≠ ""
  · simp only [if_pos h15]; rfl
  simp only [if_neg h15]
  by_cases h16 : o.ServerPort > 49151
  · simp only [if_pos h16]; rfl
  simp only [if_neg h16]
  by_cases h17 : o.AgentPort > 49151
  · simp only [if_pos h17]; rfl
  simp only [if_neg h17]
  by_cases h18 : o.AdminPort > 49151
  · simp only [if_pos h18]; rfl
  simp only [if_neg h18]
  by_cases h19 : o.HealthPort > 49151
  · simp only [if_pos h19]; rfl
  simp only [if_neg h19]
  by_cases h20 : o.ServerPort < 1024 ∧ o.UdsName = ""
  · simp only [if_pos h20]; rfl
  simp only [if_neg h20]
  by_cases h21 : o.AgentPort < 1024
  · simp only [if_pos h21]; rfl
  simp only [if_neg h21]
  by_cases h22 : o.AdminPort < 1024
  · simp only [if_pos h22]; rfl
  simp only [if_neg h22]
  by_cases h23 : o.HealthPort < 1024
  · simp only [if_pos h23]; rfl
  simp only [if_neg h23]
  by_cases h24 : o.EnableContentionProfiling = true ∧ o.EnableProfiling = false
  · simp only [if_pos h24]; rfl
  simp only [if_neg h24]
  by_cases h25 : usingServiceAccountAuth o = true ∧ o.ClusterCaCert ≠ ""
  · simp only [if_pos h25]; rfl
  simp only [if_neg h25]
  by_cases h26 : usingServiceAccountAuth o = true ∧ o.AgentNamespace = ""
  · simp only [if_pos h26]; rfl
  simp only [if_neg h26]
  by_cases h27 : usingServiceAccountAuth o = true ∧ o.AgentServiceAccount = ""
  · simp only [if_pos h27]; rfl
  simp only [if_neg h27]
  by_cases h28 : usingServiceAccountAuth o = true ∧ o.AuthenticationAudience = ""
  · simp only [if_pos h28]; rfl
  simp only [if_neg h28]
  by_cases h29 : o.KubeconfigPath ≠ "" ∧ isNotExist (env.stat o.KubeconfigPath) = true
  · simp only [if_pos h29]; rfl
  simp only [if_neg h29]
  by_cases h30 : o.ProxyStrategies.length = 0
  · simp only [if_pos h30]; rfl
  simp only [if_neg h30]
  by_cases h31 : env.parseProxyStrategiesOk o.ProxyStrategies = false
  · simp only [if_pos h31]; rfl
  simp only [if_neg h31]
  by_cases h32 : o.XfrChannelSize ≤ 0
  · simp only [if_pos h32]; rfl
  simp only [if_neg h32]
  cases hfb : firstBadCipher env.acceptedCiphers o.CipherSuites with
  | some c => rfl
  | none =>
    by_cases h33 : o.EnableLeaseController = true ∧ env.parseLabelsOk o.LeaseLabel = false
    · simp only [if_pos h33]; rfl
    · simp only [if_neg h33]; rfl

/-- C2 counterexample: on a config whose server port is 500 (too low) and
whose agent port is 50000 (too high), `Validate` reports the agent
upper-bound error, while the claim's per-listener order would report the
server lower-bound error first. -/
theorem port_check_order_counterexample :
    (Validate env0 { NewProxyRunOptions "id" with
        ServerPort := 500, AgentPort := 50000 }).2 =
      some (.ephemeralAgentPort 50000) ∧
    (ValidateClaimOrder env0 { NewProxyRunOptions "id" with
        ServerPort := 500, AgentPort := 50000 }).2 =
      some (.reservedServerPort 500) := by
  decide

/-- C1 counterexample: a config with all four listener ports set to exactly
1024 passes `Validate`, refuting the claim that a port of exactly 1024 is
rejected. -/
theorem port_1024_accepted_counterexample :
    (Validate env0 { NewProxyRunOptions "id" with
        ServerPort := 1024
        AgentPort := 1024
        AdminPort := 1024
        HealthPort := 1024 }).2 = none := by
  decide

/-- C1 (amended): for each of the four listener ports, `Validate` accepts
exactly the closed interval 1024..49151: any accepted config has all four
ports in that interval (the server port instead equal to 0 when UDS is
active), and ports inside the interval never produce a port-range error;
1024 and 49151 are accepted, 1023 and 49152 are rejected. -/
theorem validate_port_range_boundaries (env : Env) (o : ProxyRunOptions) :
    ((Validate env o).2 = none →
      ((o.UdsName = "" → 1024 ≤ o.ServerPort ∧ o.ServerPort ≤ 49151) ∧
       (o.UdsName ≠ "" → o.ServerPort = 0) ∧
       (1024 ≤ o.AgentPort ∧ o.AgentPort ≤ 49151) ∧
       (1024 ≤ o.AdminPort ∧ o.AdminPort ≤ 49151) ∧
       (1024 ≤ o.HealthPort ∧ o.HealthPort ≤ 49151))) ∧
    ((1024 ≤ o.ServerPort ∧ o.ServerPort ≤ 49151) →
     (1024 ≤ o.AgentPort ∧ o.AgentPort ≤ 49151) →
     (1024 ≤ o.AdminPort ∧ o.AdminPort ≤ 49151) →
     (1024 ≤ o.HealthPort ∧ o.HealthPort ≤ 49151) →
     ∀ e, (Validate env o).2 = some e → isPortRangeErr e = false) := by
  constructor
  · intro h
    obtain ⟨-, -, -, -, -, -, -, -, -, -, -, h12, -, -, -, h16, h17, h18, h19,
      h20, h21, h22, h23, -, -, -, -, -, -, -, -, -, -, -⟩ :=
      validate_none_conds env o h
    refine ⟨?_, ?_, ⟨?_, ?_⟩, ⟨?_, ?_⟩, ⟨?_, ?_⟩⟩
    · intro hu
      have hlow : ¬(o.ServerPort < 1024) := fun hp => h20 ⟨hp, hu⟩
      omega
    · intro hu
      by_contra hp
      exact h12 ⟨hu, hp⟩
    · omega
    · omega
    · omega
    · omega
    · omega
    · omega
  · intro hs ha had hh e he
    have hc := validate_some_cond env o e he
    cases e <;> try rfl
    all_goals exfalso
    all_goals obtain ⟨-, hbad⟩ := hc
    all_goals omega

/-- C1 witness: the default config is accepted and its agent port lies in
the accepted interval. -/
theorem validate_port_range_boundaries_witness :
    1024 ≤ (NewProxyRunOptions "id").AgentPort ∧
    (NewProxyRunOptions "id").AgentPort ≤ 49151 :=
  ((validate_port_range_boundaries env0 (NewProxyRunOptions "id")).1
    (by decide)).2.2.1

/-- C3: with a non-empty UDS socket name, `Validate` only ever succeeds when
the server port is exactly 0 and all three frontend TLS fields are empty. -/
theorem validate_uds_requirements (env : Env) (o : ProxyRunOptions)
    (hu : o.UdsName ≠ "") (h : (Validate env o).2 = none) :
    o.ServerPort = 0 ∧ o.ServerCert = "" ∧ o.ServerKey = "" ∧
    o.ServerCaCert = "" := by
  obtain ⟨-, -, -, -, -, -, -, -, -, -, -, h12, h13, h14, h15, -, -, -, -, -,
    -, -, -, -, -, -, -, -, -, -, -, -, -, -⟩ := validate_none_conds env o h
  refine ⟨?_, ?_, ?_, ?_⟩
  · by_contra hp
    exact h12 ⟨hu, hp⟩
  · by_contra hp
    exact h14 ⟨hu, hp⟩
  · by_contra hp
    exact h13 ⟨hu, hp⟩
  · by_contra hp
    exact h15 ⟨hu, hp⟩

/-- C3 witness: a UDS config with server port 0 and no frontend TLS passes,
and the theorem instantiates on it. -/
theorem validate_uds_requirements_witness :
    ({ NewProxyRunOptions "id" with
        UdsName := "u.sock"
        ServerPort := 0 } : ProxyRunOptions).ServerPort = 0 ∧
    ({ NewProxyRunOptions "id" with
        UdsName := "u.sock"
        ServerPort := 0 } : ProxyRunOptions).ServerCert = "" ∧
    ({ NewProxyRunOptions "id" with
        UdsName := "u.sock"
        ServerPort := 0 } : ProxyRunOptions).ServerKey = "" ∧
    ({ NewProxyRunOptions "id" with
        UdsName := "u.sock"
        ServerPort := 0 } : ProxyRunOptions).ServerCaCert = "" :=
  validate_uds_requirements env0
    { NewProxyRunOptions "id" with
        UdsName := "u.sock"
        ServerPort := 0 }
    (by decide) (by decide)

/-- C4: setting exactly one of a role's TLS cert/key (the set one naming an
existing file) makes `Validate` fail, for both the frontend and the backend
pair; and when both are set to existing files or both are empty, the
returned error (if any) is never that role's pairing error. -/
theorem validate_tls_pairing (env : Env) (o : ProxyRunOptions) :
    ((o.ServerKey ≠ "" ∧ o.ServerCert = "" ∧ env.stat o.ServerKey = .ok) →
      (Validate env o).2 ≠ none) ∧
    ((o.ServerCert ≠ "" ∧ o.ServerKey = "" ∧ env.stat o.ServerCert = .ok) →
      (Validate env o).2 ≠ none) ∧
    ((o.ClusterKey ≠ "" ∧ o.ClusterCert = "" ∧ env.stat o.ClusterKey = .ok) →
      (Validate env o).2 ≠ none) ∧
    ((o.ClusterCert ≠ "" ∧ o.ClusterKey = "" ∧ env.stat o.ClusterCert = .ok) →
      (Validate env o).2 ≠ none) ∧
    (((o.ServerKey ≠ "" ∧ o.ServerCert ≠ "" ∧ env.stat o.ServerKey = .ok ∧
        env.stat o.ServerCert = .ok) ∨ (o.ServerKey = "" ∧ o.ServerCert = "")) →
      ∀ e, (Validate env o).2 = some e → isFrontendPairingErr e = false) ∧
    (((o.ClusterKey ≠ "" ∧ o.ClusterCert ≠ "" ∧ env.stat o.ClusterKey = .ok ∧
        env.stat o.ClusterCert = .ok) ∨ (o.ClusterKey = "" ∧ o.ClusterCert = "")) →
      ∀ e, (Validate env o).2 = some e → isBackendPairingErr e = false) := by
  refine ⟨?_, ?_, ?_, ?_, ?_, ?_⟩
  · intro ha h
    exact (validate_none_conds env o h).2.1 ⟨ha.1, ha.2.1⟩
  · intro ha h
    exact (validate_none_conds env o h).2.2.2.1 ⟨ha.1, ha.2.1⟩
  · intro ha h
    exact (validate_none_conds env o h).2.2.2.2.2.2.1 ⟨ha.1, ha.2.1⟩
  · intro ha h
    exact (validate_none_conds env o h).2.2.2.2.2.2.2.2.1 ⟨ha.1, ha.2.1⟩
  · intro hb e he
    have hc := validate_some_cond env o e he
    cases e <;> try rfl
    · exfalso
      obtain ⟨-, hkey, hcert⟩ := hc
      rcases hb with ⟨-, hcert2, -, -⟩ | ⟨hkey2, -⟩
      · exact hcert2 hcert
      · exact hkey hkey2
    · exfalso
      obtain ⟨-, hcert, hkey⟩ := hc
      rcases hb with ⟨hkey2, -, -, -⟩ | ⟨-, hcert2⟩
      · exact hkey2 hkey
      · exact hcert hcert2
  · intro hb e he
    have hc := validate_some_cond env o e he
    cases e <;> try rfl
    · exfalso
      obtain ⟨-, hkey, hcert⟩ := hc
      rcases hb with ⟨-, hcert2, -, -⟩ | ⟨hkey2, -⟩
      · exact hcert2 hcert
      · exact hkey hkey2
    · exfalso
      obtain ⟨-, hcert, hkey⟩ := hc
      rcases hb with ⟨hkey2, -, -, -⟩ | ⟨-, hcert2⟩
      · exact hkey2 hkey
      · exact hcert hcert2

/-- C4 witness: a config with only the server key set (and the file
existing) is rejected, and on a config failing for an unrelated reason (bad
mode) the pairing check is not the reported error. -/
theorem validate_tls_pairing_witness :
    (Validate envOk { NewProxyRunOptions "id" with ServerKey := "k" }).2 ≠ none ∧
    isFrontendPairingErr (ValidateError.badMode "x") = false :=
  ⟨(validate_tls_pairing envOk
      { NewProxyRunOptions "id" with ServerKey := "k" }).1
      ⟨by decide, by decide, by decide⟩,
   (validate_tls_pairing env0
      { NewProxyRunOptions "id" with Mode := "x" }).2.2.2.2.1
      (Or.inr ⟨by decide, by decide⟩) (ValidateError.badMode "x") (by decide)⟩

/-- C5: `Validate` rejects any config in which a strict nonempty subset of
the three service-account fields is set, and any config in which all three
are set together with a non-empty backend cluster CA cert. -/
theorem validate_service_account_all_or_nothing (env : Env) (o : ProxyRunOptions) :
    (((o.AgentNamespace ≠ "" ∨ o.AgentServiceAccount ≠ "" ∨
        o.AuthenticationAudience ≠ "") ∧
      ¬(o.AgentNamespace ≠ "" ∧ o.AgentServiceAccount ≠ "" ∧
        o.AuthenticationAudience ≠ "")) →
      (Validate env o).2 ≠ none) ∧
    ((o.AgentNamespace ≠ "" ∧ o.AgentServiceAccount ≠ "" ∧
      o.AuthenticationAudience ≠ "" ∧ o.ClusterCaCert ≠ "") →
      (Validate env o).2 ≠ none) := by
  constructor
  · rintro ⟨hsome, hnotall⟩ h
    obtain ⟨-, -, -, -, -, -, -, -, -, -, -, -, -, -, -, -, -, -, -, -, -, -,
      -, -, -, h26, h27, h28, -, -, -, -, -, -⟩ := validate_none_conds env o h
    have hsa : usingServiceAccountAuth o = true :=
      (usingServiceAccountAuth_eq_true_iff o).2 hsome
    exact hnotall ⟨fun he => h26 ⟨hsa, he⟩, fun he => h27 ⟨hsa, he⟩,
      fun he => h28 ⟨hsa, he⟩⟩
  · rintro ⟨hns, -, -, hca⟩ h
    obtain ⟨-, -, -, -, -, -, -, -, -, -, -, -, -, -, -, -, -, -, -, -, -, -,
      -, -, h25, -, -, -, -, -, -, -, -, -⟩ := validate_none_conds env o h
    exact h25 ⟨(usingServiceAccountAuth_eq_true_iff o).2 (Or.inl hns), hca⟩

/-- C5 witness: a config with only the agent namespace set is rejected. -/
theorem validate_service_account_all_or_nothing_witness :
    (Validate env0 { NewProxyRunOptions "id" with AgentNamespace := "ns" }).2 ≠
      none :=
  (validate_service_account_all_or_nothing env0
    { NewProxyRunOptions "id" with AgentNamespace := "ns" }).1
    ⟨Or.inl (by decide), by decide⟩

/-- C6: whenever `Validate` succeeds, the returned state is the input with
exactly one field changed: `NeedsKubernetesClient`, set to service-account
auth active OR lease controller enabled. -/
theorem validate_success_sets_needs_client (env : Env) (o : ProxyRunOptions)
    (h : (Validate env o).2 = none) :
    (Validate env o).1 = { o with
      NeedsKubernetesClient := usingServiceAccountAuth o || o.EnableLeaseController } := by
  rcases validate_shape env o with hs | ⟨e, he⟩
  · rw [hs]
  · rw [he] at h
    exact absurd h (by simp)

/-- C6 witness: instantiated on the default config under `env0`. -/
theorem validate_success_sets_needs_client_witness :
    (Validate env0 (NewProxyRunOptions "id")).1 =
      { NewProxyRunOptions "id" with
        NeedsKubernetesClient := usingServiceAccountAuth (NewProxyRunOptions "id") || (NewProxyRunOptions "id").EnableLeaseController } :=
  validate_success_sets_needs_client env0 (NewProxyRunOptions "id") (by decide)

/-- C7: the default-constructed config passes `Validate` in any environment
whose strategy parser accepts the string default, and the derived
`NeedsKubernetesClient` field comes out false. -/
theorem default_options_pass_validate (env : Env) (sid : String)
    (hp : env.parseProxyStrategiesOk "default" = true) :
    (Validate env (NewProxyRunOptions sid)).2 = none ∧
    (Validate env (NewProxyRunOptions sid)).1.NeedsKubernetesClient = false := by
  have hn : (Validate env (NewProxyRunOptions sid)).2 = none :=
    validate_all_neg_none env (NewProxyRunOptions sid)
      (fun hc => hc.1 rfl) (fun hc => hc.1 rfl) (fun hc => hc.1 rfl)
      (fun hc => hc.1 rfl) (fun hc => hc.1 rfl) (fun hc => hc.1 rfl)
      (fun hc => hc.1 rfl) (fun hc => hc.1 rfl) (fun hc => hc.1 rfl)
      (fun hc => hc.1 rfl) (fun hc => hc.1 rfl) (fun hc => hc.1 rfl)
      (fun hc => hc.1 rfl) (fun hc => hc.1 rfl) (fun hc => hc.1 rfl)
      (by decide : ¬((8090 : Int) > 49151)) (by decide : ¬((8091 : Int) > 49151))
      (by decide : ¬((8095 : Int) > 49151)) (by decide : ¬((8092 : Int) > 49151))
      (by decide : ¬((8090 : Int) < 1024 ∧ ("" : String) = ""))
      (by decide : ¬((8091 : Int) < 1024)) (by decide : ¬((8095 : Int) < 1024))
      (by decide : ¬((8092 : Int) < 1024))
      (fun hc => Bool.noConfusion hc.1)
      (fun hc => Bool.noConfusion hc.1) (fun hc => Bool.noConfusion hc.1)
      (fun hc => Bool.noConfusion hc.1) (fun hc => Bool.noConfusion hc.1)
      (fun hc => hc.1 rfl)
      (by decide : ¬(("default" : String).length = 0))
      (fun hbad => Bool.noConfusion (hp.symm.trans hbad))
      (by decide : ¬((10 : Int) ≤ 0)) rfl
      (fun hc => Bool.noConfusion hc.1)
  rcases validate_shape env (NewProxyRunOptions sid) with hs | ⟨e, he⟩
  · rw [hs]
    exact ⟨rfl, rfl⟩
  · rw [he] at hn
    exact absurd hn (by simp)

/-- C7 witness: instantiated in the concrete environment whose strategy
parser is the spec model. -/
theorem default_options_pass_validate_witness :
    (Validate env0 (NewProxyRunOptions "w7")).2 = none ∧
    (Validate env0 (NewProxyRunOptions "w7")).1.NeedsKubernetesClient = false :=
  default_options_pass_validate env0 "w7" (by decide)

/-- C8: whenever `Validate` returns an error, the returned state is exactly
the input config: no field, in particular not `NeedsKubernetesClient`, is
modified on any failure path. -/
theorem validate_error_leaves_config_unchanged (env : Env) (o : ProxyRunOptions)
    (e : ValidateError) (h : (Validate env o).2 = some e) :
    (Validate env o).1 = o := by
  rcases validate_shape env o with hs | ⟨e2, he⟩
  · rw [hs] at h
    exact absurd h (by simp)
  · rw [he]

/-- C8 witness: instantiated on a config rejected for a bad mode. -/
theorem validate_error_leaves_config_unchanged_witness :
    (Validate env0 { NewProxyRunOptions "id" with Mode := "x" }).1 =
      { NewProxyRunOptions "id" with Mode := "x" } :=
  validate_error_leaves_config_unchanged env0
    { NewProxyRunOptions "id" with Mode := "x" } (.badMode "x") (by decide)

/-- C9: a file-existence error is only ever reported for a path whose stat
outcome is specifically the does-not-exist error; any other stat failure
passes the existence check. -/
theorem validate_stat_errors_only_not_exist (env : Env) (o : ProxyRunOptions)
    (e : ValidateError) (p : String) (h : (Validate env o).2 = some e)
    (hp : errStatPath e = some p) : env.stat p = .errNotExist := by
  have hc := validate_some_cond env o e h
  cases e <;> simp [errStatPath] at hp
  all_goals obtain ⟨he, -, hs⟩ := hc
  all_goals subst hp
  all_goals rw [he]
  all_goals exact (isNotExist_eq_true_iff _).1 hs

/-- C9 witness: instantiated on a config with a CA path that does not
exist. -/
theorem validate_stat_errors_only_not_exist_witness :
    env0.stat "ca" = StatResult.errNotExist :=
  validate_stat_errors_only_not_exist env0
    { NewProxyRunOptions "id" with ServerCaCert := "ca" }
    (.checkServerCaCert "ca") "ca" (by decide) (by decide)

/-- C10: with the lease controller disabled, the lease label is never
parsed: an accepting run stays accepting under any change of the label
string and of the label-parser itself. -/
theorem validate_lease_label_not_parsed_when_disabled (env : Env)
    (o : ProxyRunOptions) (f g : String → Bool) (l1 l2 : String)
    (hE : o.EnableLeaseController = false)
    (h : (Validate { env with parseLabelsOk := f }
        { o with LeaseLabel := l1 }).2 = none) :
    (Validate { env with parseLabelsOk := g }
        { o with LeaseLabel := l2 }).2 = none := by
  obtain ⟨h1, h2, h3, h4, h5, h6, h7, h8, h9, h10, h11, h12, h13, h14, h15,
    h16, h17, h18, h19, h20, h21, h22, h23, h24, h25, h26, h27, h28, h29,
    h30, h31, h32, hfb, -⟩ := validate_none_conds _ _ h
  refine validate_all_neg_none _ _ h1 h2 h3 h4 h5 h6 h7 h8 h9 h10 h11 h12 h13
    h14 h15 h16 h17 h18 h19 h20 h21 h22 h23 h24 h25 h26 h27 h28 h29 h30 h31
    h32 hfb ?_
  intro hc
  have hlc := hc.1
  simp [hE] at hlc

/-- C10 witness: a default config accepted with one label under a rejecting
parser stays accepted with an arbitrary other label under another parser. -/
theorem validate_lease_label_not_parsed_when_disabled_witness :
    (Validate { env0 with parseLabelsOk := fun _ => true }
        { NewProxyRunOptions "id" with LeaseLabel := "b=c" }).2 = none :=
  validate_lease_label_not_parsed_when_disabled env0 (NewProxyRunOptions "id")
    (fun _ => false) (fun _ => true) "a" "b=c" (by decide) (by decide)
